import Mathlib

set_option linter.unusedVariables false

/- Shallow embedding of src/chip8.rs (the CHIP-8 virtual machine core).

   Modelling conventions:
   - Rust machine integers (u8, u16, usize) are Nat; wrap-around of u8
     arithmetic (the release-profile semantics the repository's own tests
     rely on, see the overflow tests in chip8.rs) is written explicitly as
     `% 256`.
   - Rust fixed-size arrays are total functions `Nat → Nat`; the live index
     ranges are memory < 4096, v < 16, gfx < 2048, stack < 16, keys < 16,
     matching the Rust array lengths.  An index access outside the array
     bound is a Rust panic and is modelled as `Except.error`.
   - A Rust panic aborts the host process; it is modelled by the `EmuPanic`
     error type.  The Rust code has no recoverable error path.
   - Bit operations on opcode fields are rendered arithmetically:
     `op & 0x0F00 >> 8` is `op / 256 % 16`, `op & 0x00F0 >> 4` is
     `op / 16 % 16`, `op & 0x000F` is `op % 16`, `op & 0x00FF` is
     `op % 256`, `op & 0x0FFF` is `op % 4096`, and matching on
     `op & 0xF000` is dispatch on `op / 4096 % 16`.  These agree for every
     Nat because the masks are contiguous low-bit windows. -/

/-- Pointwise update of a function modelling one mutable Rust array store. -/
def upd (f : Nat → Nat) (k v : Nat) : Nat → Nat :=
  fun n => if n = k then v else f n

/-- Execution states, mirroring `enum ChipState` in src/chip8.rs.  Note the
Rust enum has no Halted or error-carrying variant. -/
inductive ChipState where
  | Block
  | Run
  | Draw
  | Clear
  | Pause
  | Quit
deriving DecidableEq

/-- Rust runtime failures of chip8.rs, each of which aborts the host process:
an explicit `panic!` on an unknown opcode, an array index out of bounds, or
an arithmetic overflow / failed integer conversion `unwrap`. -/
inductive EmuPanic where
  | unknownOpcode (op : Nat)
  | indexOutOfBounds
  | integerOverflow
deriving DecidableEq

/-- Machine state: `struct Chip8` in src/chip8.rs, field for field. -/
structure Chip8 where
  memory : Nat → Nat
  v : Nat → Nat
  i : Nat
  program_counter : Nat
  gfx : Nat → Nat
  state : ChipState
  delay_timer : Nat
  sound_timer : Nat
  stack : Nat → Nat
  stack_pointer : Nat
  keys : Nat → Nat

/-- Opcode 00E0: clears the screen (`clear_screen`). -/
def clear_screen (c : Chip8) : Chip8 :=
  { c with gfx := fun _ => 0, state := ChipState.Clear,
           program_counter := c.program_counter + 2 }

/-- Opcode 00EE: returns from subroutine (`return_from_subroutine`).
With stack_pointer = 0 the Rust `self.stack_pointer -= 1` underflows usize:
a panic in a checked build, and in an unchecked build the wrapped value
makes `self.stack[self.stack_pointer]` panic; either way the process
aborts.  Otherwise PC becomes `(stack[SP-1] & 0x0FFF) + 2`, the mask being
`% 4096`. -/
def return_from_subroutine (c : Chip8) : Except EmuPanic Chip8 :=
  if c.stack_pointer = 0 then Except.error EmuPanic.integerOverflow
  else Except.ok { c with
    stack_pointer := c.stack_pointer - 1,
    program_counter := c.stack (c.stack_pointer - 1) % 4096 + 2 }

/-- Opcode 1NNN: goto NNN (`goto`). -/
def goto (op : Nat) (c : Chip8) : Chip8 :=
  { c with program_counter := op % 4096 }

/-- Opcode 2NNN: calls subroutine at NNN (`call_subroutine`).
`u16::try_from(program_counter)` fails above 0xFFFF, and `stack[SP]` with
SP ≥ 16 is out of bounds; both are panics. -/
def call_subroutine (op : Nat) (c : Chip8) : Except EmuPanic Chip8 :=
  if c.program_counter ≥ 65536 then Except.error EmuPanic.integerOverflow
  else if c.stack_pointer ≥ 16 then Except.error EmuPanic.indexOutOfBounds
  else Except.ok { c with
    stack := upd c.stack c.stack_pointer c.program_counter,
    stack_pointer := c.stack_pointer + 1,
    program_counter := op % 4096 }

/-- Opcode 3XNN: skips the next instruction if VX equals NN
(`skip_if_eq_to_nn`). -/
def skip_if_eq_to_nn (op : Nat) (c : Chip8) : Chip8 :=
  if c.v (op / 256 % 16) = op % 256 then
    { c with program_counter := c.program_counter + 4 }
  else { c with program_counter := c.program_counter + 2 }

/-- Opcode 4XNN: skips the next instruction if VX does not equal NN
(`skip_if_not_eq_to_nn`). -/
def skip_if_not_eq_to_nn (op : Nat) (c : Chip8) : Chip8 :=
  if c.v (op / 256 % 16) ≠ op % 256 then
    { c with program_counter := c.program_counter + 4 }
  else { c with program_counter := c.program_counter + 2 }

/-- Opcode 5XY0: skips the next instruction if VX equals VY
(`skip_if_vx_eq_to_vy`). -/
def skip_if_vx_eq_to_vy (op : Nat) (c : Chip8) : Chip8 :=
  if c.v (op / 256 % 16) = c.v (op / 16 % 16) then
    { c with program_counter := c.program_counter + 4 }
  else { c with program_counter := c.program_counter + 2 }

/-- Opcode 6XNN: sets VX to NN (`set_vx_to_nn`). -/
def set_vx_to_nn (op : Nat) (c : Chip8) : Chip8 :=
  { c with v := upd c.v (op / 256 % 16) (op % 256),
           program_counter := c.program_counter + 2 }

/-- Opcode 7XNN: adds NN to VX (`add_nn_to_vx`); the u8 `+=` wraps at 256. -/
def add_nn_to_vx (op : Nat) (c : Chip8) : Chip8 :=
  { c with v := upd c.v (op / 256 % 16) ((c.v (op / 256 % 16) + op % 256) % 256),
           program_counter := c.program_counter + 2 }

/-- Opcode 8XY0: sets VX to the value of VY (`set_vx_to_vy`). -/
def set_vx_to_vy (op : Nat) (c : Chip8) : Chip8 :=
  { c with v := upd c.v (op / 256 % 16) (c.v (op / 16 % 16)),
           program_counter := c.program_counter + 2 }

/-- Opcode 8XY1: sets VX to VX or VY (`set_vx_to_vx_or_vy`). -/
def set_vx_to_vx_or_vy (op : Nat) (c : Chip8) : Chip8 :=
  { c with v := upd c.v (op / 256 % 16)
                  (c.v (op / 256 % 16) ||| c.v (op / 16 % 16)),
           program_counter := c.program_counter + 2 }

/-- Opcode 8XY2: sets VX to VX and VY (`set_vx_to_vx_and_vy`). -/
def set_vx_to_vx_and_vy (op : Nat) (c : Chip8) : Chip8 :=
  { c with v := upd c.v (op / 256 % 16)
                  (c.v (op / 256 % 16) &&& c.v (op / 16 % 16)),
           program_counter := c.program_counter + 2 }

/-- Opcode 8XY3: sets VX to VX xor VY (`set_vx_to_vx_xor_vy`). -/
def set_vx_to_vx_xor_vy (op : Nat) (c : Chip8) : Chip8 :=
  { c with v := upd c.v (op / 256 % 16)
                  (c.v (op / 256 % 16) ^^^ c.v (op / 16 % 16)),
           program_counter := c.program_counter + 2 }

/-- Opcode 8XY4 (`set_vx_to_vx_plus_vy`): the Rust code first writes
`v[0xF] = if v[y] > v[x] { 1 } else { 0 }` and only then performs the
wrapping u8 add `v[x] += v[y]`.  The second read goes through the already
updated register file (visible when x or y is 0xF), hence the intermediate
`v1`. -/
def set_vx_to_vx_plus_vy (op : Nat) (c : Chip8) : Chip8 :=
  let x := op / 256 % 16
  let y := op / 16 % 16
  let v1 := upd c.v 0xF (if c.v y > c.v x then 1 else 0)
  { c with v := upd v1 x ((v1 x + v1 y) % 256),
           program_counter := c.program_counter + 2 }

/-- Opcode 8XY5 (`set_vx_to_vx_minus_vy`): the Rust code writes
`v[0xF] = if v[x] > v[y] { 1 } else { 0 }` (strict comparison) and then the
wrapping u8 subtraction `v[x] -= v[y]`, written `(a + 256 - b) % 256` for
byte values a, b < 256. -/
def set_vx_to_vx_minus_vy (op : Nat) (c : Chip8) : Chip8 :=
  let x := op / 256 % 16
  let y := op / 16 % 16
  let v1 := upd c.v 0xF (if c.v x > c.v y then 1 else 0)
  { c with v := upd v1 x ((v1 x + 256 - v1 y) % 256),
           program_counter := c.program_counter + 2 }

/-- Opcode 8XY6 (`shift_right`): stores the least significant bit of VX in
VF, then shifts VX right by one. -/
def shift_right (op : Nat) (c : Chip8) : Chip8 :=
  let x := op / 256 % 16
  let v1 := upd c.v 0xF (c.v x &&& 0x01)
  { c with v := upd v1 x (v1 x >>> 1),
           program_counter := c.program_counter + 2 }

/-- Opcode 8XY7 (`set_vx_to_vy_minus_vx`): `v[0xF] = if v[y] > v[x]` then
the wrapping u8 subtraction `v[x] = v[y] - v[x]`. -/
def set_vx_to_vy_minus_vx (op : Nat) (c : Chip8) : Chip8 :=
  let x := op / 256 % 16
  let y := op / 16 % 16
  let v1 := upd c.v 0xF (if c.v y > c.v x then 1 else 0)
  { c with v := upd v1 x ((v1 y + 256 - v1 x) % 256),
           program_counter := c.program_counter + 2 }

/-- Opcode 8XYE (`shift_left`): stores the most significant bit of VX
(`v[x] >> 7` on a u8) in VF, then the wrapping u8 shift `v[x] <<= 1`. -/
def shift_left (op : Nat) (c : Chip8) : Chip8 :=
  let x := op / 256 % 16
  let v1 := upd c.v 0xF (c.v x >>> 7)
  { c with v := upd v1 x ((v1 x <<< 1) % 256),
           program_counter := c.program_counter + 2 }

/-- Opcode 9XY0: skips the next instruction if VX does not equal VY
(`skip_if_vx_not_eq_vy`). -/
def skip_if_vx_not_eq_vy (op : Nat) (c : Chip8) : Chip8 :=
  if c.v (op / 256 % 16) ≠ c.v (op / 16 % 16) then
    { c with program_counter := c.program_counter + 4 }
  else { c with program_counter := c.program_counter + 2 }

/-- Opcode ANNN: sets I to the address NNN (`set_i_to_nnn`). -/
def set_i_to_nnn (op : Nat) (c : Chip8) : Chip8 :=
  { c with i := op % 4096, program_counter := c.program_counter + 2 }

/-- Opcode BNNN: jumps to the address NNN plus V0 (`goto_nnn_plus_v0`);
the usize sum is not masked, so PC can leave the 12-bit address space. -/
def goto_nnn_plus_v0 (op : Nat) (c : Chip8) : Chip8 :=
  { c with program_counter := c.v 0 + op % 4096 }

/-- Opcode CXNN (`set_vx_to_rand_and_nn`): `thread_rng().gen_range(0..255)`
yields a value in [0, 255), modelled as `rand % 255` for an arbitrary seed
`rand` threaded through the interpreter. -/
def set_vx_to_rand_and_nn (rand op : Nat) (c : Chip8) : Chip8 :=
  { c with v := upd c.v (op / 256 % 16) ((rand % 255) &&& (op % 256)),
           program_counter := c.program_counter + 2 }

/-- Inner column loop of `draw`: for each x_offset, if sprite bit
`pixel & (0x80 >> x_offset)` is set, the pixel at
`index = x + x_offset + (y + y_offset) * 64` is tested for collision and
XORed.  The Rust code performs no bounds check: `gfx[index]` with
index ≥ 2048 panics. -/
def draw_cols (x y y_offset pixel : Nat) (c : Chip8) :
    List Nat → Except EmuPanic Chip8
  | [] => Except.ok c
  | x_offset :: rest =>
    if pixel &&& (0x80 >>> x_offset) ≠ 0 then
      if x + x_offset + (y + y_offset) * 64 < 2048 then
        draw_cols x y y_offset pixel
          { c with
            v := if c.gfx (x + x_offset + (y + y_offset) * 64) = 1 then
                   upd c.v 0xF 1
                 else c.v,
            gfx := upd c.gfx (x + x_offset + (y + y_offset) * 64)
                     (c.gfx (x + x_offset + (y + y_offset) * 64) ^^^ 1) }
          rest
      else Except.error EmuPanic.indexOutOfBounds
    else draw_cols x y y_offset pixel c rest

/-- Outer row loop of `draw`: reads the sprite byte `memory[i + y_offset]`
(panics when i + y_offset ≥ 4096) and runs the column loop over
x_offset = 0..8.  The dead `if height == 0 break` of the source is a no-op
because the row range is already empty when height = 0. -/
def draw_rows (x y : Nat) (c : Chip8) : List Nat → Except EmuPanic Chip8
  | [] => Except.ok c
  | y_offset :: rest =>
    if c.i + y_offset < 4096 then
      match draw_cols x y y_offset (c.memory (c.i + y_offset)) c
          (List.range 8) with
      | Except.ok c2 => draw_rows x y c2 rest
      | Except.error e => Except.error e
    else Except.error EmuPanic.indexOutOfBounds

/-- Opcode DXYN (`draw`): draws the sprite at (V[x], V[y]) of height N.
V[x] and V[y] are read before VF is zeroed, exactly as in the source. -/
def draw (op : Nat) (c : Chip8) : Except EmuPanic Chip8 :=
  match draw_rows (c.v (op / 256 % 16)) (c.v (op / 16 % 16))
      { c with v := upd c.v 0xF 0 } (List.range (op % 16)) with
  | Except.ok c2 => Except.ok { c2 with
      state := ChipState.Draw,
      program_counter := c2.program_counter + 2 }
  | Except.error e => Except.error e

/-- Opcode EX9E (`skip_if_key_pressed`): `keys[v[x]]` is read with no range
check, so v[x] ≥ 16 panics with an index out of bounds. -/
def skip_if_key_pressed (op : Nat) (c : Chip8) : Except EmuPanic Chip8 :=
  if c.v (op / 256 % 16) < 16 then
    Except.ok
      (if c.keys (c.v (op / 256 % 16)) ≠ 0 then
        { c with program_counter := c.program_counter + 4 }
      else { c with program_counter := c.program_counter + 2 })
  else Except.error EmuPanic.indexOutOfBounds

/-- Opcode EXA1 (`skip_if_not_key_pressed`): same unchecked `keys[v[x]]`
read as EX9E. -/
def skip_if_not_key_pressed (op : Nat) (c : Chip8) : Except EmuPanic Chip8 :=
  if c.v (op / 256 % 16) < 16 then
    Except.ok
      (if c.keys (c.v (op / 256 % 16)) = 0 then
        { c with program_counter := c.program_counter + 4 }
      else { c with program_counter := c.program_counter + 2 })
  else Except.error EmuPanic.indexOutOfBounds

/-- Opcode FX07: sets VX to the value of the delay timer
(`set_vx_to_delay_timer`). -/
def set_vx_to_delay_timer (op : Nat) (c : Chip8) : Chip8 :=
  { c with v := upd c.v (op / 256 % 16) c.delay_timer,
           program_counter := c.program_counter + 2 }

/-- First index in the list whose key value equals 1: the ascending scan of
the `for i in 0..16` loop in `is_key_press`, which breaks at the first hit. -/
def first_pressed_key (keys : Nat → Nat) : List Nat → Option Nat
  | [] => none
  | n :: rest => if keys n = 1 then some n else first_pressed_key keys rest

/-- Opcode FX0A (`is_key_press`): sets state to Block, scans keys 0..16 for
the first entry equal to 1; on a hit stores that index in VX, restores
state Run and advances PC by 2; otherwise leaves state Block with PC
unchanged. -/
def is_key_press (op : Nat) (c : Chip8) : Chip8 :=
  match first_pressed_key c.keys (List.range 16) with
  | some k => { c with v := upd c.v (op / 256 % 16) k,
                       state := ChipState.Run,
                       program_counter := c.program_counter + 2 }
  | none => { c with state := ChipState.Block }

/-- Opcode FX15: sets the delay timer to VX (`set_delay_timer_to_vx`). -/
def set_delay_timer_to_vx (op : Nat) (c : Chip8) : Chip8 :=
  { c with delay_timer := c.v (op / 256 % 16),
           program_counter := c.program_counter + 2 }

/-- Opcode FX18: sets the sound timer to VX (`set_sound_timer_to_vx`). -/
def set_sound_timer_to_vx (op : Nat) (c : Chip8) : Chip8 :=
  { c with sound_timer := c.v (op / 256 % 16),
           program_counter := c.program_counter + 2 }

/-- Opcode FX1E: adds VX to I with no mask (`add_vx_to_i`). -/
def add_vx_to_i (op : Nat) (c : Chip8) : Chip8 :=
  { c with i := c.i + c.v (op / 256 % 16),
           program_counter := c.program_counter + 2 }

/-- Opcode FX29: sets I to the font sprite address VX * 5
(`set_i_to_sprite`). -/
def set_i_to_sprite (op : Nat) (c : Chip8) : Chip8 :=
  { c with i := c.v (op / 256 % 16) * 0x5,
           program_counter := c.program_counter + 2 }

/-- Opcode FX33 (`bcd`): writes the decimal digits of VX to memory at
I, I+1, I+2.  Each write is an unchecked index; the three writes succeed
exactly when i + 2 < 4096, and otherwise the process aborts, which the
single up-front test models (the partially written memory of the Rust run
is unobservable past the abort). -/
def bcd (op : Nat) (c : Chip8) : Except EmuPanic Chip8 :=
  if c.i + 2 < 4096 then
    Except.ok { c with
      memory := upd (upd (upd c.memory
          c.i (c.v (op / 256 % 16) / 100))
          (c.i + 1) (c.v (op / 256 % 16) / 10 % 10))
          (c.i + 2) (c.v (op / 256 % 16) % 100 % 10),
      program_counter := c.program_counter + 2 }
  else Except.error EmuPanic.indexOutOfBounds

/-- Store loop of FX55: `memory[i + n] = v[n]` for each n, panicking on an
out-of-bounds memory index. -/
def reg_dump_loop (c : Chip8) : List Nat → Except EmuPanic Chip8
  | [] => Except.ok c
  | n :: rest =>
    if c.i + n < 4096 then
      reg_dump_loop { c with memory := upd c.memory (c.i + n) (c.v n) } rest
    else Except.error EmuPanic.indexOutOfBounds

/-- Opcode FX55 (`reg_dump`): stores V0..VX to memory starting at I; I is
left unmodified; PC advances by 2. -/
def reg_dump (op : Nat) (c : Chip8) : Except EmuPanic Chip8 :=
  match reg_dump_loop c (List.range (op / 256 % 16 + 1)) with
  | Except.ok c2 =>
      Except.ok { c2 with program_counter := c2.program_counter + 2 }
  | Except.error e => Except.error e

/-- Load loop of FX65: `v[n] = memory[i + n]` for each n, panicking on an
out-of-bounds memory index. -/
def reg_load_loop (c : Chip8) : List Nat → Except EmuPanic Chip8
  | [] => Except.ok c
  | n :: rest =>
    if c.i + n < 4096 then
      reg_load_loop { c with v := upd c.v n (c.memory (c.i + n)) } rest
    else Except.error EmuPanic.indexOutOfBounds

/-- Opcode FX65 (`reg_load`): loads V0..VX from memory starting at I; I is
left unmodified; PC advances by 2. -/
def reg_load (op : Nat) (c : Chip8) : Except EmuPanic Chip8 :=
  match reg_load_loop c (List.range (op / 256 % 16 + 1)) with
  | Except.ok c2 =>
      Except.ok { c2 with program_counter := c2.program_counter + 2 }
  | Except.error e => Except.error e

/-- Fetch (`get_op_code`): `memory[pc] << 8 | memory[pc + 1]`, two unchecked
byte reads; the second panics when pc + 1 ≥ 4096 (the first already when
pc ≥ 4096, which the same condition covers).  Since the low byte is < 256,
the `|` is addition. -/
def get_op_code (c : Chip8) : Except EmuPanic Nat :=
  if c.program_counter + 1 < 4096 then
    Except.ok (c.memory c.program_counter * 256 +
      c.memory (c.program_counter + 1))
  else Except.error EmuPanic.indexOutOfBounds

/-- Decode and dispatch of `execute`: the nested Rust match on
`op & 0xF000` and the family selectors, with the explicit
`panic!("Unknown opcode ...")` arms as `unknownOpcode` errors. -/
def exec_op (rand op : Nat) (c : Chip8) : Except EmuPanic Chip8 :=
  if op / 4096 % 16 = 0x0 then
    if op % 16 = 0x0 then Except.ok (clear_screen c)
    else if op % 16 = 0xE then return_from_subroutine c
    else Except.error (EmuPanic.unknownOpcode op)
  else if op / 4096 % 16 = 0x1 then Except.ok (goto op c)
  else if op / 4096 % 16 = 0x2 then call_subroutine op c
  else if op / 4096 % 16 = 0x3 then Except.ok (skip_if_eq_to_nn op c)
  else if op / 4096 % 16 = 0x4 then Except.ok (skip_if_not_eq_to_nn op c)
  else if op / 4096 % 16 = 0x5 then Except.ok (skip_if_vx_eq_to_vy op c)
  else if op / 4096 % 16 = 0x6 then Except.ok (set_vx_to_nn op c)
  else if op / 4096 % 16 = 0x7 then Except.ok (add_nn_to_vx op c)
  else if op / 4096 % 16 = 0x8 then
    if op % 16 = 0x0 then Except.ok (set_vx_to_vy op c)
    else if op % 16 = 0x1 then Except.ok (set_vx_to_vx_or_vy op c)
    else if op % 16 = 0x2 then Except.ok (set_vx_to_vx_and_vy op c)
    else if op % 16 = 0x3 then Except.ok (set_vx_to_vx_xor_vy op c)
    else if op % 16 = 0x4 then Except.ok (set_vx_to_vx_plus_vy op c)
    else if op % 16 = 0x5 then Except.ok (set_vx_to_vx_minus_vy op c)
    else if op % 16 = 0x6 then Except.ok (shift_right op c)
    else if op % 16 = 0x7 then Except.ok (set_vx_to_vy_minus_vx op c)
    else if op % 16 = 0xE then Except.ok (shift_left op c)
    else Except.error (EmuPanic.unknownOpcode op)
  else if op / 4096 % 16 = 0x9 then Except.ok (skip_if_vx_not_eq_vy op c)
  else if op / 4096 % 16 = 0xA then Except.ok (set_i_to_nnn op c)
  else if op / 4096 % 16 = 0xB then Except.ok (goto_nnn_plus_v0 op c)
  else if op / 4096 % 16 = 0xC then Except.ok (set_vx_to_rand_and_nn rand op c)
  else if op / 4096 % 16 = 0xD then draw op c
  else if op / 4096 % 16 = 0xE then
    if op % 16 = 0xE then skip_if_key_pressed op c
    else if op % 16 = 0x1 then skip_if_not_key_pressed op c
    else Except.error (EmuPanic.unknownOpcode op)
  else if op / 4096 % 16 = 0xF then
    if op % 256 = 0x07 then Except.ok (set_vx_to_delay_timer op c)
    else if op % 256 = 0x0A then Except.ok (is_key_press op c)
    else if op % 256 = 0x15 then Except.ok (set_delay_timer_to_vx op c)
    else if op % 256 = 0x18 then Except.ok (set_sound_timer_to_vx op c)
    else if op % 256 = 0x1E then Except.ok (add_vx_to_i op c)
    else if op % 256 = 0x29 then Except.ok (set_i_to_sprite op c)
    else if op % 256 = 0x33 then bcd op c
    else if op % 256 = 0x55 then reg_dump op c
    else if op % 256 = 0x65 then reg_load op c
    else Except.error (EmuPanic.unknownOpcode op)
  else Except.error (EmuPanic.unknownOpcode op)

/-- Fetch-decode-execute of one instruction: `execute` in src/chip8.rs. -/
def execute (rand : Nat) (c : Chip8) : Except EmuPanic Chip8 :=
  (get_op_code c).bind (fun op => exec_op rand op c)

/-- One step of the driving loop body: `emulate_cycle` in src/chip8.rs.
Resets a non-Block state to Run, executes one instruction, returns early
while Blocked, and otherwise decrements the nonzero timers (the sleep and
the beep print are host-side I/O with no machine-state effect). -/
def emulate_cycle (rand : Nat) (c0 : Chip8) : Except EmuPanic Chip8 :=
  (execute rand
      (if c0.state ≠ ChipState.Block then { c0 with state := ChipState.Run }
       else c0)).bind
    (fun c2 =>
      if c2.state = ChipState.Block then Except.ok c2
      else
        let c3 := if c2.delay_timer > 0 then
            { c2 with delay_timer := c2.delay_timer - 1 } else c2
        let c4 := if c3.sound_timer > 0 then
            { c3 with sound_timer := c3.sound_timer - 1 } else c3
        Except.ok c4)

/-- All-zero machine state used as the base of the concrete test states in
the theorems below (registers, memory, display, stack and keys zeroed, PC
at the program start 0x200, state Run, as after `Chip8::new` apart from the
font bytes, which no theorem below reads). -/
def baseChip : Chip8 :=
  { memory := fun _ => 0, v := fun _ => 0, i := 0, program_counter := 0x200,
    gfx := fun _ => 0, state := ChipState.Run, delay_timer := 0,
    sound_timer := 0, stack := fun _ => 0, stack_pointer := 0,
    keys := fun _ => 0 }

/-- Memory contents after the FX55 store loop: the writes
`memory[i + n] = v[n]` applied left to right over the index list. -/
def dump_mem (i : Nat) (v : Nat → Nat) : List Nat → (Nat → Nat) → (Nat → Nat)
  | [], m => m
  | n :: l, m => dump_mem i v l (upd m (i + n) (v n))

/-- Register file after the FX65 load loop: the writes
`v[n] = memory[i + n]` applied left to right over the index list. -/
def load_v (i : Nat) (m : Nat → Nat) : List Nat → (Nat → Nat) → (Nat → Nat)
  | [], v => v
  | n :: l, v => load_v i m l (upd v n (m (i + n)))

/-- Concrete machine for C1: PC 0x200 holds opcode 0x8014 (8xy4 with x = 0,
y = 1), V0 = 200, V1 = 100. -/
def c1_state : Chip8 :=
  { baseChip with
    memory := upd (upd baseChip.memory 0x200 0x80) 0x201 0x14,
    v := upd (upd baseChip.v 0 200) 1 100 }

/-- Concrete machine for C2: PC 0x200 holds opcode 0x8015 (8xy5 with x = 0,
y = 1), V0 = V1 = 5. -/
def c2_state : Chip8 :=
  { baseChip with
    memory := upd (upd baseChip.memory 0x200 0x80) 0x201 0x15,
    v := upd (upd baseChip.v 0 5) 1 5 }

/-- Concrete machine for C3: PC 0x200 holds opcode 0x0001, family 0x0 with
an unrecognized selector (low nibble 1, low byte neither 0xE0 nor 0xEE). -/
def c3_state : Chip8 :=
  { baseChip with
    memory := upd (upd baseChip.memory 0x200 0x00) 0x201 0x01 }

/-- Concrete machine for C4: PC 0x200 holds opcode 0xD011 (draw at
(V0, V1) = (60, 31), height 1), I = 0x300, sprite byte memory[0x300] =
0xFF. Columns 0..3 target indices 2044..2047; column 4 targets
60 + 4 + 31 * 64 = 2048, one past the display buffer. -/
def c4_state : Chip8 :=
  { baseChip with
    memory := upd (upd (upd baseChip.memory 0x200 0xD0) 0x201 0x11)
      0x300 0xFF,
    v := upd (upd baseChip.v 0 60) 1 31,
    i := 0x300 }

/-- Concrete machine for C5: PC 0x200 holds opcode 0x00EE with
stack_pointer = 0. -/
def c5_state : Chip8 :=
  { baseChip with
    memory := upd (upd baseChip.memory 0x200 0x00) 0x201 0xEE }

/-- Concrete machine for C6: PC 0x200 holds opcode 0xE09E (Ex9E with
x = 0) and V0 = 16, one past the last key index. -/
def c6_state : Chip8 :=
  { baseChip with
    memory := upd (upd baseChip.memory 0x200 0xE0) 0x201 0x9E,
    v := upd baseChip.v 0 16 }

/-- Concrete machine for the C7 counterexample: PC 0x200 holds opcode
0x7F01 (7xnn with x = 0xF, nn = 1); every register is 0. -/
def c7_cex_state : Chip8 :=
  { baseChip with
    memory := upd (upd baseChip.memory 0x200 0x7F) 0x201 0x01 }

/-- Concrete machine for the C7 witness: PC 0x200 holds opcode 0x7064
(7xnn with x = 0, nn = 100) and V0 = 200. -/
def c7_wit_state : Chip8 :=
  { baseChip with
    memory := upd (upd baseChip.memory 0x200 0x70) 0x201 0x64,
    v := upd baseChip.v 0 200 }

/-- Concrete machine for the C8 witness: PC 0x200 holds opcode 0xF00A
(Fx0A with x = 0) and only key 5 is pressed. -/
def c8_wit_state : Chip8 :=
  { baseChip with
    memory := upd (upd baseChip.memory 0x200 0xF0) 0x201 0x0A,
    keys := upd baseChip.keys 5 1 }

/-- Concrete machine for the C9 witness: I = 0x300, V0 = 17, V1 = 34,
V2 = 51. -/
def c9_wit_state : Chip8 :=
  { baseChip with
    v := upd (upd (upd baseChip.v 0 17) 1 34) 2 51,
    i := 0x300 }

/-- Concrete machine for the C10 witness: PC 0x200 holds opcode 0x00EE,
SP = 1, and the stored return address 0x1FFE has bit 12 set (it is
reachable through Bnnn with V0 = 255, nnn = 0xFFF followed by a call). -/
def c10_wit_state : Chip8 :=
  { baseChip with
    memory := upd (upd baseChip.memory 0x200 0x00) 0x201 0xEE,
    stack := upd baseChip.stack 0 0x1FFE,
    stack_pointer := 1 }

/-- Claim C1: with V0 = 200, V1 = 100 the unbounded sum 300 exceeds 255,
yet executing 8014 leaves VF = 0 (the code tests `v[y] > v[x]` before the
add instead of the carry of the sum); V0 does receive (200+100) mod 256. -/
theorem C1_8xy4_carry_flag_wrong_eval :
    (execute 0 c1_state).map (fun d => (d.v 0xF, d.v 0x0)) =
      Except.ok (0, 44) ∧ 255 < 200 + 100 := by
  exact ⟨rfl, by decide⟩

/-- Claim C2: with V0 = V1 = 5 (so V0 ≥ V1) executing 8015 leaves VF = 0
(the code tests the strict `v[x] > v[y]` instead of ≥); V0 becomes 0. -/
theorem C2_8xy5_borrow_flag_wrong_eval :
    (execute 0 c2_state).map (fun d => (d.v 0xF, d.v 0x0)) =
      Except.ok (0, 0) ∧ 5 ≥ 5 := by
  exact ⟨rfl, by decide⟩

/-- Claim C3: executing the unrecognized opcode 0x0001 hits the explicit
Rust `panic!("Unknown opcode [0x0000] ...")`, which aborts the host
process; there is no Halted state in `ChipState` to transition to. -/
theorem C3_unknown_opcode_aborts_eval :
    execute 0 c3_state = Except.error (EmuPanic.unknownOpcode 1) := by
  rfl

/-- Claim C4: a sprite bit whose target falls outside the 64x32 display is
not dropped: the unchecked `gfx[index]` access panics (index 2048 on the
fifth column), aborting the draw instead of completing it. -/
theorem C4_draw_out_of_range_panics_eval :
    execute 0 c4_state = Except.error EmuPanic.indexOutOfBounds := by
  rfl

/-- Claim C5: executing 00EE with SP = 0 underflows the usize
`stack_pointer -= 1` and aborts the process; the machine does not
transition to any StackUnderflow-reporting state. -/
theorem C5_return_underflow_panics_eval :
    execute 0 c5_state = Except.error EmuPanic.integerOverflow := by
  rfl

/-- Claim C6: executing Ex9E with Vx = 16 performs no range validation:
the unchecked `keys[16]` access panics and aborts the process instead of
failing with an InvalidKeyIndex error. -/
theorem C6_key_index_unvalidated_panics_eval :
    execute 0 c6_state = Except.error EmuPanic.indexOutOfBounds := by
  rfl

/-- Claim C10: whenever SP > 0 and the fetched instruction is 00EE, the new
program counter is the stored return address reduced mod 0x1000, plus 2:
the code masks the popped u16 with 0x0FFF before adding 2, silently
truncating any bits above bit 11. -/
theorem C10_return_truncates_to_12_bits (rand : Nat) (c : Chip8)
    (hsp : 0 < c.stack_pointer)
    (h1 : c.memory c.program_counter = 0x00)
    (h2 : c.memory (c.program_counter + 1) = 0xEE)
    (hpc : c.program_counter + 1 < 4096) :
    execute rand c = Except.ok { c with
      stack_pointer := c.stack_pointer - 1,
      program_counter := c.stack (c.stack_pointer - 1) % 4096 + 2 } := by
  have hop : get_op_code c = Except.ok 238 := by
    simp [get_op_code, hpc, h1, h2]
  have hne : c.stack_pointer ≠ 0 := Nat.pos_iff_ne_zero.mp hsp
  simp only [execute, hop, Except.bind]
  simp [exec_op, return_from_subroutine, hne]

/-- Witness for C10: with return address 0x1FFE on the stack, the return
lands at 0x1FFE mod 0x1000 + 2 = 0x1000, not 0x2000. -/
theorem C10_return_truncates_witness :
    execute 0 c10_wit_state = Except.ok { c10_wit_state with
      stack_pointer := c10_wit_state.stack_pointer - 1,
      program_counter :=
        c10_wit_state.stack (c10_wit_state.stack_pointer - 1) % 4096 + 2 } ∧
    c10_wit_state.stack (c10_wit_state.stack_pointer - 1) % 4096 + 2 =
      0x1000 := by
  exact ⟨C10_return_truncates_to_12_bits 0 c10_wit_state (by decide) rfl rfl
    (by decide), by decide⟩

/-- Counterexample for C7: executing 7xnn with x = 0xF (opcode 0x7F01,
VF = 0 beforehand) changes VF to 1, so "leaves VF untouched" fails when
the target register is VF itself. -/
theorem C7_vf_touched_counterexample :
    (execute 0 c7_cex_state).map (fun d => d.v 0xF) = Except.ok 1 ∧
      c7_cex_state.v 0xF = 0 := by
  exact ⟨rfl, rfl⟩

/-- Claim C7 as amended: for all a, b in [0,255], executing 7xnn with
Vx = a and nn = b yields Vx = (a+b) mod 256 without failing and advances
PC by 2; VF is left untouched whenever x is not 0xF (when x = 0xF the
written register is VF itself). -/
theorem C7_add_nn_wraps_amended (rand x a b : Nat) (c : Chip8)
    (hx : x < 16) (ha : a < 256) (hb : b < 256)
    (hva : c.v x = a)
    (h1 : c.memory c.program_counter = 112 + x)
    (h2 : c.memory (c.program_counter + 1) = b)
    (hpc : c.program_counter + 1 < 4096) :
    ∃ d, execute rand c = Except.ok d ∧ d.v x = (a + b) % 256 ∧
      d.program_counter = c.program_counter + 2 ∧
      (x ≠ 0xF → d.v 0xF = c.v 0xF) := by
  have hop : get_op_code c = Except.ok ((112 + x) * 256 + b) := by
    simp [get_op_code, hpc, h1, h2]
  have hfam : ((112 + x) * 256 + b) / 4096 % 16 = 7 := by omega
  have hx' : ((112 + x) * 256 + b) / 256 % 16 = x := by omega
  have hb' : ((112 + x) * 256 + b) % 256 = b := by omega
  refine ⟨add_nn_to_vx ((112 + x) * 256 + b) c, ?_, ?_, ?_, ?_⟩
  · simp only [execute, hop, Except.bind]
    simp only [exec_op, hfam]
    norm_num
  · simp [add_nn_to_vx, hx', hb', upd, hva]
  · simp [add_nn_to_vx]
  · intro hxf
    have h15 : (15 : Nat) ≠ x := fun h => hxf h.symm
    simp [add_nn_to_vx, hx', upd, h15]

/-- Witness for the amended C7: opcode 0x7064 with V0 = 200 yields
V0 = (200 + 100) mod 256 = 44, PC 0x202, and VF still 0. -/
theorem C7_add_nn_wraps_witness :
    (execute 0 c7_wit_state).map
        (fun d => (d.v 0, d.program_counter, d.v 0xF)) =
      Except.ok (44, 0x202, 0) := by
  obtain ⟨d, hd, hv, hp, hf⟩ :=
    C7_add_nn_wraps_amended 0 0 200 100 c7_wit_state (by decide) (by decide)
      (by decide) rfl rfl rfl (by decide)
  rw [hd]
  simp only [Except.map]
  rw [hv, hp, hf (by decide)]
  rfl

/-- Helper: the FX55 store loop succeeds when every touched address is in
bounds, and it only rewrites the memory field, per `dump_mem`. -/
theorem reg_dump_loop_ok (l : List Nat) : ∀ c : Chip8,
    (∀ n ∈ l, c.i + n < 4096) →
    reg_dump_loop c l =
      Except.ok { c with memory := dump_mem c.i c.v l c.memory } := by
  induction l with
  | nil => intro c _; rfl
  | cons a l ih =>
    intro c hb
    have hba : c.i + a < 4096 := hb a (List.mem_cons_self a l)
    have := ih { c with memory := upd c.memory (c.i + a) (c.v a) }
      (fun n hn => hb n (List.mem_cons_of_mem a hn))
    simp only [reg_dump_loop, if_pos hba, this]
    rfl

/-- Helper: the FX65 load loop succeeds when every touched address is in
bounds, and it only rewrites the register file, per `load_v`. -/
theorem reg_load_loop_ok (l : List Nat) : ∀ c : Chip8,
    (∀ n ∈ l, c.i + n < 4096) →
    reg_load_loop c l =
      Except.ok { c with v := load_v c.i c.memory l c.v } := by
  induction l with
  | nil => intro c _; rfl
  | cons a l ih =>
    intro c hb
    have hba : c.i + a < 4096 := hb a (List.mem_cons_self a l)
    have := ih { c with v := upd c.v a (c.memory (c.i + a)) }
      (fun n hn => hb n (List.mem_cons_of_mem a hn))
    simp only [reg_load_loop, if_pos hba, this]
    rfl

/-- Helper: addresses whose register index is not in the store list keep
their previous memory value. -/
theorem dump_mem_not_mem (i : Nat) (v : Nat → Nat) (n : Nat) :
    ∀ (l : List Nat) (m : Nat → Nat), n ∉ l →
      dump_mem i v l m (i + n) = m (i + n) := by
  intro l
  induction l with
  | nil => intro m _; rfl
  | cons a l ih =>
    intro m hn
    have hna : n ≠ a := fun h => hn (h ▸ List.mem_cons_self a l)
    have hnl : n ∉ l := fun h => hn (List.mem_cons_of_mem a h)
    simp only [dump_mem, ih _ hnl, upd]
    simp [Nat.add_right_cancel_iff, hna]

/-- Helper: an address in the store list ends up holding the register value
of its index. -/
theorem dump_mem_mem (i : Nat) (v : Nat → Nat) (n : Nat) :
    ∀ (l : List Nat) (m : Nat → Nat), n ∈ l →
      dump_mem i v l m (i + n) = v n := by
  intro l
  induction l with
  | nil => intro m h; cases h
  | cons a l ih =>
    intro m hn
    by_cases hl : n ∈ l
    · simp only [dump_mem, ih _ hl]
    · have hna : n = a := by
        rcases List.mem_cons.mp hn with h | h
        · exact h
        · exact absurd h hl
      subst hna
      simp only [dump_mem, dump_mem_not_mem i v n l _ hl, upd]
      simp

/-- Helper: registers outside the load list keep their previous value. -/
theorem load_v_not_mem (i : Nat) (m : Nat → Nat) (n : Nat) :
    ∀ (l : List Nat) (v : Nat → Nat), n ∉ l →
      load_v i m l v n = v n := by
  intro l
  induction l with
  | nil => intro v _; rfl
  | cons a l ih =>
    intro v hn
    have hna : n ≠ a := fun h => hn (h ▸ List.mem_cons_self a l)
    have hnl : n ∉ l := fun h => hn (List.mem_cons_of_mem a h)
    simp only [load_v, ih _ hnl, upd]
    simp [hna]

/-- Helper: a register in the load list ends up holding the memory byte at
its address. -/
theorem load_v_mem (i : Nat) (m : Nat → Nat) (n : Nat) :
    ∀ (l : List Nat) (v : Nat → Nat), n ∈ l →
      load_v i m l v n = m (i + n) := by
  intro l
  induction l with
  | nil => intro v h; cases h
  | cons a l ih =>
    intro v hn
    by_cases hl : n ∈ l
    · simp only [load_v, ih _ hl]
    · have hna : n = a := by
        rcases List.mem_cons.mp hn with h | h
        · exact h
        · exact absurd h hl
      subst hna
      simp only [load_v, load_v_not_mem i m n l _ hl, upd]
      simp

/-- Claim C9: when I + x < 4096, FX55 followed by FX65 with the same x and
the same I succeeds, restores V0..Vx bit-for-bit, and neither instruction
changes I. -/
theorem C9_dump_load_round_trip (x : Nat) (c : Chip8)
    (hx : x < 16) (hbound : c.i + x < 4096) :
    ∃ c1 c2,
      reg_dump (0xF055 + x * 256) c = Except.ok c1 ∧
      reg_load (0xF065 + x * 256) c1 = Except.ok c2 ∧
      c1.i = c.i ∧ c2.i = c.i ∧
      ∀ n, n ≤ x → c2.v n = c.v n := by
  have hx1 : (0xF055 + x * 256) / 256 % 16 = x := by omega
  have hx2 : (0xF065 + x * 256) / 256 % 16 = x := by omega
  have hbl : ∀ n ∈ List.range (x + 1), c.i + n < 4096 := by
    intro n hn
    have := List.mem_range.mp hn
    omega
  have hd := reg_dump_loop_ok (List.range (x + 1)) c hbl
  have hl := reg_load_loop_ok (List.range (x + 1))
    { c with memory := dump_mem c.i c.v (List.range (x + 1)) c.memory,
             program_counter := c.program_counter + 2 } hbl
  refine ⟨{ c with
      memory := dump_mem c.i c.v (List.range (x + 1)) c.memory,
      program_counter := c.program_counter + 2 },
    { c with
      memory := dump_mem c.i c.v (List.range (x + 1)) c.memory,
      program_counter := c.program_counter + 2 + 2,
      v := load_v c.i
        (dump_mem c.i c.v (List.range (x + 1)) c.memory)
        (List.range (x + 1)) c.v }, ?_, ?_, rfl, rfl, ?_⟩
  · simp only [reg_dump, hx1]
    rw [hd]
  · simp only [reg_load, hx2]
    rw [hl]
  · intro n hn
    have hmem : n ∈ List.range (x + 1) := List.mem_range.mpr (by omega)
    show load_v c.i (dump_mem c.i c.v (List.range (x + 1)) c.memory)
        (List.range (x + 1)) c.v n = c.v n
    rw [load_v_mem c.i _ n (List.range (x + 1)) c.v hmem]
    exact dump_mem_mem c.i c.v n (List.range (x + 1)) c.memory hmem

/-- Witness for C9: dumping then loading V0..V2 = 17, 34, 51 through
memory at I = 0x300 returns the same three values and leaves I = 0x300. -/
theorem C9_dump_load_witness :
    ((reg_dump (0xF055 + 2 * 256) c9_wit_state).bind
        (fun c1 => reg_load (0xF065 + 2 * 256) c1)).map
        (fun c2 => (c2.v 0, c2.v 1, c2.v 2, c2.i)) =
      Except.ok (17, 34, 51, 0x300) := by
  obtain ⟨c1, c2, h1, h2, hi1, hi2, hv⟩ :=
    C9_dump_load_round_trip 2 c9_wit_state (by decide) (by decide)
  rw [h1]
  simp only [Except.bind]
  rw [h2]
  simp only [Except.map]
  rw [hv 0 (by omega), hv 1 (by omega), hv 2 (by omega), hi2]
  rfl

/-- Helper: the FX0A key scan finds nothing when no listed key reads 1. -/
theorem first_pressed_key_none (keys : Nat → Nat) :
    ∀ l : List Nat, (∀ n ∈ l, keys n ≠ 1) →
      first_pressed_key keys l = none := by
  intro l
  induction l with
  | nil => intro _; rfl
  | cons a l ih =>
    intro h
    have ha := h a (List.mem_cons_self a l)
    simp only [first_pressed_key, if_neg ha]
    exact ih (fun n hn => h n (List.mem_cons_of_mem a hn))

/-- Helper: over an ascending index range the FX0A key scan returns the
least pressed index. -/
theorem first_pressed_key_least (keys : Nat → Nat) (k : Nat) :
    ∀ n s : Nat, s ≤ k → k < s + n → keys k = 1 →
      (∀ j < k, keys j ≠ 1) →
      first_pressed_key keys (List.range' s n) = some k := by
  intro n
  induction n with
  | zero => intro s hs hk _ _; omega
  | succ n ih =>
    intro s hs hk h1 hleast
    by_cases hsk : s = k
    · subst hsk
      simp [List.range', first_pressed_key, h1]
    · have hlt : s < k := lt_of_le_of_ne hs hsk
      have hns : keys s ≠ 1 := hleast s hlt
      simp only [List.range', first_pressed_key, if_neg hns]
      exact ih (s + 1) (by omega) (by omega) h1 hleast

/-- Helper: a machine whose fetched instruction is Fx0A dispatches to
`is_key_press`. -/
theorem execute_fx0a (rand x : Nat) (c : Chip8) (hx : x < 16)
    (h1 : c.memory c.program_counter = 240 + x)
    (h2 : c.memory (c.program_counter + 1) = 10)
    (hpc : c.program_counter + 1 < 4096) :
    execute rand c = Except.ok (is_key_press ((240 + x) * 256 + 10) c) := by
  have hop : get_op_code c = Except.ok ((240 + x) * 256 + 10) := by
    simp [get_op_code, hpc, h1, h2]
  have hfam : ((240 + x) * 256 + 10) / 4096 % 16 = 15 := by omega
  have hff : ((240 + x) * 256 + 10) % 256 = 10 := by omega
  simp only [execute, hop, Except.bind]
  simp only [exec_op, hfam, hff]
  norm_num

/-- Claim C8: on Fx0A, if no key in the 16-entry latch is pressed the step
leaves the machine Blocked with PC (and everything else) unchanged and a
further step reproduces the very same state; if some key is pressed, the
step stores the lowest pressed index in Vx, runs again, and advances PC
by 2. -/
theorem C8_fx0a_key_wait (rand x : Nat) (c : Chip8) (hx : x < 16)
    (h1 : c.memory c.program_counter = 240 + x)
    (h2 : c.memory (c.program_counter + 1) = 10)
    (hpc : c.program_counter + 1 < 4096) :
    ((∀ i < 16, c.keys i = 0) →
      emulate_cycle rand c = Except.ok { c with state := ChipState.Block } ∧
      emulate_cycle rand { c with state := ChipState.Block } =
        Except.ok { c with state := ChipState.Block }) ∧
    (∀ k, k < 16 → c.keys k = 1 → (∀ j < k, c.keys j ≠ 1) →
      ∃ d, emulate_cycle rand c = Except.ok d ∧ d.v x = k ∧
        d.state = ChipState.Run ∧
        d.program_counter = c.program_counter + 2) := by
  constructor
  · intro hk
    have hnone : first_pressed_key c.keys (List.range 16) = none := by
      apply first_pressed_key_none
      intro n hn
      have := hk n (List.mem_range.mp hn)
      omega
    have hkey : ∀ c' : Chip8, c'.keys = c.keys →
        is_key_press ((240 + x) * 256 + 10) c' =
          { c' with state := ChipState.Block } := by
      intro c' hk'
      simp only [is_key_press, hk', hnone]
    constructor
    · by_cases hst : c.state = ChipState.Block
      · simp only [emulate_cycle]
        rw [if_neg (fun h => h hst)]
        rw [execute_fx0a rand x c hx h1 h2 hpc, hkey c rfl]
        simp [Except.bind]
      · simp only [emulate_cycle]
        rw [if_pos hst]
        rw [execute_fx0a rand x { c with state := ChipState.Run } hx h1 h2 hpc,
          hkey { c with state := ChipState.Run } rfl]
        simp [Except.bind]
    · simp only [emulate_cycle]
      rw [if_neg (fun h => h rfl)]
      rw [execute_fx0a rand x { c with state := ChipState.Block } hx h1 h2 hpc,
        hkey { c with state := ChipState.Block } rfl]
      simp [Except.bind]
  · intro k hk16 hk1 hleast
    have hsome : first_pressed_key c.keys (List.range 16) = some k := by
      rw [List.range_eq_range']
      exact first_pressed_key_least c.keys k 16 0 (Nat.zero_le k) (by omega)
        hk1 (fun j hj => hleast j hj)
    have hxop : ((240 + x) * 256 + 10) / 256 % 16 = x := by omega
    have hkey : ∀ c' : Chip8, c'.keys = c.keys →
        is_key_press ((240 + x) * 256 + 10) c' =
          { c' with v := upd c'.v x k, state := ChipState.Run,
                    program_counter := c'.program_counter + 2 } := by
      intro c' hk'
      simp only [is_key_press, hxop, hk', hsome]
    by_cases hst : c.state = ChipState.Block
    · simp only [emulate_cycle]
      rw [if_neg (fun h => h hst)]
      rw [execute_fx0a rand x c hx h1 h2 hpc, hkey c rfl]
      simp only [Except.bind]
      rw [if_neg (by simp)]
      refine ⟨_, rfl, ?_, ?_, ?_⟩
      · split <;> split <;> simp [upd]
      · split <;> split <;> rfl
      · split <;> split <;> rfl
    · simp only [emulate_cycle]
      rw [if_pos hst]
      rw [execute_fx0a rand x { c with state := ChipState.Run } hx h1 h2 hpc,
        hkey { c with state := ChipState.Run } rfl]
      simp only [Except.bind]
      rw [if_neg (by simp)]
      refine ⟨_, rfl, ?_, ?_, ?_⟩
      · split <;> split <;> simp [upd]
      · split <;> split <;> rfl
      · split <;> split <;> rfl

/-- Witness for C8: with only key 5 pressed, stepping on opcode 0xF00A
stores 5 in V0 and advances PC to 0x202. -/
theorem C8_fx0a_key_wait_witness :
    (emulate_cycle 0 c8_wit_state).map
        (fun d => (d.v 0, d.program_counter)) = Except.ok (5, 0x202) := by
  obtain ⟨d, hd, hv, hs, hp⟩ :=
    (C8_fx0a_key_wait 0 0 c8_wit_state (by decide) rfl rfl (by decide)).2
      5 (by decide) rfl (by decide)
  rw [hd]
  simp only [Except.map]
  rw [hv, hp]
  rfl
